import Mathlib

/-!
Shallow embedding of the dispersion core of the Ascent repository
(file src/weather_integration.py): the weather data model, the
Pasquill-Gifford stability classifier, the Gaussian-plume dispersion
calculator, and the per-pollutant dispersion-series builder.

Python floats are modelled as rationals on the input side (all constants
in the source are exact decimals); concentrations are real numbers, since
the plume formula uses pi, exp and a fractional power.  Python dicts with
insertion order are modelled as association lists.
-/

/-- Embedding of the dataclass WeatherCondition (weather_integration.py):
temperature (K), pressure (hPa), humidity (percent), wind speed (m/s),
wind direction (degrees), cloud cover (percent). -/
structure WeatherCondition where
  temperature : ℚ
  pressure : ℚ
  humidity : ℚ
  wind_speed : ℚ
  wind_direction : ℚ
  cloud_cover : ℚ
deriving DecidableEq

/-- Embedding of WeatherIntegrator._get_dummy_weather: the fixed dummy
weather state returned when the live fetch is unavailable. -/
def get_dummy_weather : WeatherCondition :=
  { temperature := 288.15
    pressure := 1013.25
    humidity := 70.0
    wind_speed := 5.0
    wind_direction := 180.0
    cloud_cover := 30.0 }

/-- Embedding of WeatherIntegrator.get_current_weather: the network fetch is
modelled by its outcome, an optional WeatherCondition.  On success the fetched
state is returned; on a request failure the except-branch returns the dummy
state from _get_dummy_weather. -/
def get_current_weather (fetched : Option WeatherCondition) : WeatherCondition :=
  match fetched with
  | some w => w
  | none => get_dummy_weather

/-- Embedding of DispersionCalculator.determine_stability_class: the
ascending first-match ladder on wind_speed alone. -/
def determine_stability_class (weather : WeatherCondition) : String :=
  if weather.wind_speed < 2 then "F"
  else if weather.wind_speed < 3 then "E"
  else if weather.wind_speed < 5 then "D"
  else if weather.wind_speed < 6 then "C"
  else if weather.wind_speed < 8 then "B"
  else "A"

/-- Embedding of the DispersionCalculator.stability_classes dict: each class
maps to its coefficient pair (a, b).  Lookup of the six keys produced by
determine_stability_class; the final branch is class F. -/
def stability_classes (c : String) : ℚ × ℚ :=
  if c = "A" then (0.527, 0.865)
  else if c = "B" then (0.371, 0.866)
  else if c = "C" then (0.209, 0.897)
  else if c = "D" then (0.128, 0.905)
  else if c = "E" then (0.098, 0.902)
  else (0.065, 0.902)

/-- The fixed altitude list of DispersionCalculator.calculate_dispersion:
heights = [0, 50, 100, 200, 500] meters. -/
def heights : List ℕ := [0, 50, 100, 200, 500]

/-- The default stack_height argument of calculate_dispersion (10.0 m). -/
def default_stack_height : ℚ := 10.0

/-- The spread parameter of calculate_dispersion:
sigma_y = sigma_z = a * distance ** b, where (a, b) are the coefficients of
the resolved stability class and ** is the real power. -/
noncomputable def sigma_yz (weather : WeatherCondition) (distance : ℚ) : ℝ :=
  let params := stability_classes (determine_stability_class weather)
  (params.1 : ℝ) * (distance : ℝ) ^ (params.2 : ℝ)

/-- The loop body of calculate_dispersion: the Gaussian plume value
emission_rate / (2 pi wind_speed sigma_y sigma_z)
* exp(-0.5 * (z - stack_height)^2 / sigma_z^2), with
sigma_y = sigma_z = sigma_yz. -/
noncomputable def plume_concentration (weather : WeatherCondition)
    (emission_rate : ℚ) (distance : ℚ) (stack_height : ℚ) (z : ℕ) : ℝ :=
  (emission_rate : ℝ) /
      (2 * Real.pi * (weather.wind_speed : ℝ) * sigma_yz weather distance *
        sigma_yz weather distance) *
    Real.exp (-0.5 * ((z : ℝ) - (stack_height : ℝ)) ^ 2 / sigma_yz weather distance ^ 2)

/-- Embedding of DispersionCalculator.calculate_dispersion: resolve the
stability class, compute sigma_y = sigma_z = a * distance ** b, and for each
height z emit the key f-string of z with unit suffix and the Gaussian plume
concentration at z. -/
noncomputable def calculate_dispersion (weather : WeatherCondition)
    (emission_rate : ℚ) (distance : ℚ) (stack_height : ℚ) :
    List (String × ℝ) :=
  heights.map fun (z : ℕ) =>
    (toString z ++ "m", plume_concentration weather emission_rate distance stack_height z)

/-- The fixed distance list of LaunchWeatherAnalyzer.analyze_launch_conditions:
distances = [100, 500, 1000, 2000, 5000] meters. -/
def distances : List ℕ := [100, 500, 1000, 2000, 5000]

/-- Embedding of LaunchWeatherAnalyzer.analyze_launch_conditions: fetch the
weather (with dummy fallback), then for each pollutant and each fixed distance
call calculate_dispersion (with the default stack height) and key the field by
the distance label; the result pairs the weather with the per-pollutant
patterns. -/
noncomputable def analyze_launch_conditions (fetched : Option WeatherCondition)
    (predicted_emissions : List (String × ℚ)) :
    WeatherCondition × List (String × List (String × List (String × ℝ))) :=
  let weather_conditions := get_current_weather fetched
  (weather_conditions,
    predicted_emissions.map fun pe =>
      (pe.1,
        distances.map fun d =>
          (toString d ++ "m",
            calculate_dispersion weather_conditions pe.2 (d : ℚ) default_stack_height)))

/-- The concentration stored under the altitude label of z in a concentration
field, defaulting to 0 when the key is absent. -/
noncomputable def concAt (field : List (String × ℝ)) (z : ℕ) : ℝ :=
  ((field.lookup (toString z ++ "m")).getD 0)

/-- Modelled from the spec (section 4.2), for comparison with the source: the
per-altitude concentration the specification prescribes, with the wind_effect
factor wind_speed / 5.0 inside sigma, the plume centerline fixed at 50 m, and
the time-decay factor exp(-time_step / 10.0). -/
noncomputable def specC1_concentration (weather : WeatherCondition)
    (emission_rate : ℚ) (distance : ℚ) (time_step : ℚ) (z : ℕ) : ℝ :=
  let params := stability_classes (determine_stability_class weather)
  let wind_effect : ℝ := (weather.wind_speed : ℝ) / 5
  let sigma_y : ℝ := (params.1 : ℝ) * (distance : ℝ) ^ (params.2 : ℝ) * wind_effect
  let sigma_z : ℝ := sigma_y
  (emission_rate : ℝ) / (2 * Real.pi * (weather.wind_speed : ℝ) * sigma_y * sigma_z) *
    Real.exp (-0.5 * ((z : ℝ) - 50) ^ 2 / sigma_z ^ 2) *
    Real.exp (-(time_step : ℝ) / 10)

/-- The concentration the repository associates with a given time offset: the
source calculate_dispersion takes no time-step argument (weather_integration.py
lines 112-138), so every time offset receives the value of the same call; the
parameter t does not occur on the right-hand side because it does not occur in
the source. -/
noncomputable def concentration_for_time_step (weather : WeatherCondition)
    (emission_rate : ℚ) (distance : ℚ) (stack_height : ℚ) (t : ℕ) (z : ℕ) : ℝ :=
  concAt (calculate_dispersion weather emission_rate distance stack_height) z

/-- Propositional all-pairs predicate on a concentration field. -/
def FieldAll (P : ℝ → Prop) : List (String × ℝ) → Prop
  | [] => True
  | p :: l => P p.2 ∧ FieldAll P l

section Helpers

/-- Each of the six coefficient pairs has a strictly positive first
component a. -/
lemma stability_classes_a_pos (c : String) : 0 < (stability_classes c).1 := by
  unfold stability_classes
  split_ifs <;> norm_num

/-- The dummy weather state (wind_speed 5.0) resolves to stability class C. -/
lemma dummy_stability_class : determine_stability_class get_dummy_weather = "C" := by
  norm_num [determine_stability_class, get_dummy_weather]

/-- The spread parameter is strictly positive for positive distance. -/
lemma sigma_yz_pos (w : WeatherCondition) (d : ℚ) (hd : 0 < d) : 0 < sigma_yz w d := by
  unfold sigma_yz
  have ha : (0 : ℚ) < (stability_classes (determine_stability_class w)).1 :=
    stability_classes_a_pos _
  have ha2 : (0 : ℝ) < ((stability_classes (determine_stability_class w)).1 : ℝ) := by
    exact_mod_cast ha
  have hd2 : (0 : ℝ) < (d : ℝ) := by exact_mod_cast hd
  exact mul_pos ha2 (Real.rpow_pos_of_pos hd2 _)

/-- The denominator 2 pi wind_speed sigma_y sigma_z is strictly positive for
positive wind speed and distance. -/
lemma plume_denominator_pos (w : WeatherCondition) (d : ℚ)
    (hws : 0 < w.wind_speed) (hd : 0 < d) :
    0 < 2 * Real.pi * (w.wind_speed : ℝ) * sigma_yz w d * sigma_yz w d := by
  have h1 : (0 : ℝ) < (w.wind_speed : ℝ) := by exact_mod_cast hws
  have h2 := sigma_yz_pos w d hd
  have h3 := Real.pi_pos
  positivity

/-- Nonnegativity of the plume value for valid inputs. -/
lemma plume_concentration_nonneg (w : WeatherCondition) (e d s : ℚ) (z : ℕ)
    (hws : 0 < w.wind_speed) (he : 0 ≤ e) (hd : 0 < d) :
    0 ≤ plume_concentration w e d s z := by
  unfold plume_concentration
  have he2 : (0 : ℝ) ≤ (e : ℝ) := by exact_mod_cast he
  exact mul_nonneg (div_nonneg he2 (plume_denominator_pos w d hws hd).le) (Real.exp_pos _).le

/-- The exponential factor never exceeds one: its argument is nonpositive. -/
lemma plume_exp_le_one (w : WeatherCondition) (d s : ℚ) (z : ℕ) (hd : 0 < d) :
    Real.exp (-0.5 * ((z : ℝ) - (s : ℝ)) ^ 2 / sigma_yz w d ^ 2) ≤ 1 := by
  rw [Real.exp_le_one_iff]
  have hs2 : (0 : ℝ) < sigma_yz w d ^ 2 := pow_pos (sigma_yz_pos w d hd) 2
  have hz2 : (0 : ℝ) ≤ ((z : ℝ) - (s : ℝ)) ^ 2 := sq_nonneg _
  apply div_nonpos_of_nonpos_of_nonneg _ hs2.le
  nlinarith

/-- Upper bound on the plume value: the centerline coefficient. -/
lemma plume_concentration_le (w : WeatherCondition) (e d s : ℚ) (z : ℕ)
    (hws : 0 < w.wind_speed) (he : 0 ≤ e) (hd : 0 < d) :
    plume_concentration w e d s z ≤
      (e : ℝ) / (2 * Real.pi * (w.wind_speed : ℝ) * sigma_yz w d * sigma_yz w d) := by
  unfold plume_concentration
  have he2 : (0 : ℝ) ≤ (e : ℝ) := by exact_mod_cast he
  have hK : 0 ≤ (e : ℝ) / (2 * Real.pi * (w.wind_speed : ℝ) * sigma_yz w d * sigma_yz w d) :=
    div_nonneg he2 (plume_denominator_pos w d hws hd).le
  exact mul_le_of_le_one_right hK (plume_exp_le_one w d s z hd)

/-- Strict negativity of the plume value for a negative emission rate. -/
lemma plume_concentration_neg (w : WeatherCondition) (e d s : ℚ) (z : ℕ)
    (hws : 0 < w.wind_speed) (he : e < 0) (hd : 0 < d) :
    plume_concentration w e d s z < 0 := by
  unfold plume_concentration
  have he2 : (e : ℝ) < 0 := by exact_mod_cast he
  exact mul_neg_of_neg_of_pos
    (div_neg_of_neg_of_pos he2 (plume_denominator_pos w d hws hd)) (Real.exp_pos _)

/-- The plume value is strictly larger at an altitude strictly closer to the
stack height, for a strictly positive emission rate. -/
lemma plume_concentration_lt (w : WeatherCondition) (e d s : ℚ) (z₁ z₂ : ℕ)
    (hws : 0 < w.wind_speed) (he : 0 < e) (hd : 0 < d)
    (hz : ((z₁ : ℝ) - (s : ℝ)) ^ 2 < ((z₂ : ℝ) - (s : ℝ)) ^ 2) :
    plume_concentration w e d s z₂ < plume_concentration w e d s z₁ := by
  unfold plume_concentration
  have he2 : (0 : ℝ) < (e : ℝ) := by exact_mod_cast he
  have hK : 0 < (e : ℝ) / (2 * Real.pi * (w.wind_speed : ℝ) * sigma_yz w d * sigma_yz w d) :=
    div_pos he2 (plume_denominator_pos w d hws hd)
  have hs2 : (0 : ℝ) < sigma_yz w d ^ 2 := pow_pos (sigma_yz_pos w d hd) 2
  have hexp : Real.exp (-0.5 * ((z₂ : ℝ) - (s : ℝ)) ^ 2 / sigma_yz w d ^ 2) <
      Real.exp (-0.5 * ((z₁ : ℝ) - (s : ℝ)) ^ 2 / sigma_yz w d ^ 2) := by
    apply Real.exp_lt_exp.mpr
    apply div_lt_div_of_pos_right _ hs2
    nlinarith
  exact mul_lt_mul_of_pos_left hexp hK

end Helpers

/-- C6: classification is the first match in the ascending ladder on
wind_speed alone: below 2 gives F, below 3 gives E, below 5 gives D, below 6
gives C, below 8 gives B, otherwise A; no other weather attribute affects the
result, so two states with equal wind_speed classify identically (hence the
boundary values 2, 3, 5, 6, 8 map to E, D, C, B, A respectively). -/
theorem C6_stability_ladder (w v : WeatherCondition) :
    (w.wind_speed < 2 → determine_stability_class w = "F") ∧
    (2 ≤ w.wind_speed → w.wind_speed < 3 → determine_stability_class w = "E") ∧
    (3 ≤ w.wind_speed → w.wind_speed < 5 → determine_stability_class w = "D") ∧
    (5 ≤ w.wind_speed → w.wind_speed < 6 → determine_stability_class w = "C") ∧
    (6 ≤ w.wind_speed → w.wind_speed < 8 → determine_stability_class w = "B") ∧
    (8 ≤ w.wind_speed → determine_stability_class w = "A") ∧
    (w.wind_speed = v.wind_speed →
      determine_stability_class w = determine_stability_class v) := by
  unfold determine_stability_class
  refine ⟨?_, ?_, ?_, ?_, ?_, ?_, ?_⟩ <;> intros <;> split_ifs <;>
    first
    | rfl
    | linarith

/-- C6 witness: the boundary wind speeds 2, 3, 5, 6, 8 classify as E, D, C, B,
A, and a state agreeing with the dummy state only on wind_speed classifies the
same way as the dummy state. -/
theorem C6_stability_ladder_witness :
    determine_stability_class ⟨288.15, 1013.25, 70.0, 2, 180.0, 30.0⟩ = "E" ∧
    determine_stability_class ⟨288.15, 1013.25, 70.0, 3, 180.0, 30.0⟩ = "D" ∧
    determine_stability_class ⟨288.15, 1013.25, 70.0, 5, 180.0, 30.0⟩ = "C" ∧
    determine_stability_class ⟨288.15, 1013.25, 70.0, 6, 180.0, 30.0⟩ = "B" ∧
    determine_stability_class ⟨288.15, 1013.25, 70.0, 8, 180.0, 30.0⟩ = "A" ∧
    determine_stability_class get_dummy_weather =
      determine_stability_class ⟨300, 900, 10, 5.0, 0, 100⟩ := by
  refine ⟨?_, ?_, ?_, ?_, ?_, ?_⟩
  · exact (C6_stability_ladder ⟨288.15, 1013.25, 70.0, 2, 180.0, 30.0⟩
      get_dummy_weather).2.1 (by norm_num) (by norm_num)
  · exact (C6_stability_ladder ⟨288.15, 1013.25, 70.0, 3, 180.0, 30.0⟩
      get_dummy_weather).2.2.1 (by norm_num) (by norm_num)
  · exact (C6_stability_ladder ⟨288.15, 1013.25, 70.0, 5, 180.0, 30.0⟩
      get_dummy_weather).2.2.2.1 (by norm_num) (by norm_num)
  · exact (C6_stability_ladder ⟨288.15, 1013.25, 70.0, 6, 180.0, 30.0⟩
      get_dummy_weather).2.2.2.2.1 (by norm_num) (by norm_num)
  · exact (C6_stability_ladder ⟨288.15, 1013.25, 70.0, 8, 180.0, 30.0⟩
      get_dummy_weather).2.2.2.2.2.1 (by norm_num)
  · exact (C6_stability_ladder get_dummy_weather
      ⟨300, 900, 10, 5.0, 0, 100⟩).2.2.2.2.2.2 (by norm_num [get_dummy_weather])

/-- C8: every concentration field carries exactly the five altitude keys
0m, 50m, 100m, 200m, 500m, in that stable order, with no duplicates,
whatever the weather, emission rate, distance and stack height are. -/
theorem C8_altitude_keys (w : WeatherCondition) (e d s : ℚ) :
    (calculate_dispersion w e d s).map Prod.fst =
      ["0m", "50m", "100m", "200m", "500m"] ∧
    ((calculate_dispersion w e d s).map Prod.fst).Nodup := by
  constructor
  · rfl
  · have h : (calculate_dispersion w e d s).map Prod.fst =
        ["0m", "50m", "100m", "200m", "500m"] := rfl
    rw [h]
    decide

/-- C9: when the live fetch fails (modelled by an absent fetch result), the
weather-acquisition operation returns the fixed dummy state with temperature
288.15 K, pressure 1013.25 hPa, humidity 70 percent, wind_speed 5.0 m/s,
wind_direction 180 degrees, cloud_cover 30 percent, and the analysis proceeds
with that state. -/
theorem C9_dummy_fallback (em : List (String × ℚ)) :
    get_current_weather none =
      { temperature := 288.15
        pressure := 1013.25
        humidity := 70.0
        wind_speed := 5.0
        wind_direction := 180.0
        cloud_cover := 30.0 } ∧
    (analyze_launch_conditions none em).1 = get_current_weather none :=
  ⟨rfl, rfl⟩

/-- C10: the dispersion output depends on the weather state only through
wind_speed: two states that agree on wind_speed yield identical concentration
fields for the same emission rate, distance and stack height. -/
theorem C10_wind_speed_only (w v : WeatherCondition) (e d s : ℚ)
    (h : w.wind_speed = v.wind_speed) :
    calculate_dispersion w e d s = calculate_dispersion v e d s := by
  unfold calculate_dispersion plume_concentration sigma_yz determine_stability_class
  rw [h]

/-- C10 witness: the dummy state and a state differing in every attribute but
wind_speed produce the same concentration field. -/
theorem C10_wind_speed_only_witness :
    calculate_dispersion get_dummy_weather 1000 500 10 =
      calculate_dispersion ⟨300, 900, 10, 5.0, 0, 100⟩ 1000 500 10 :=
  C10_wind_speed_only get_dummy_weather ⟨300, 900, 10, 5.0, 0, 100⟩ 1000 500 10
    (by norm_num [get_dummy_weather])

/-- C4 counterexample: the claim asserts strict decay in the time step for a
positive emission rate, but for the query (dummy weather, emission rate 1000,
distance 500, stack height 10, altitude 0) the concentration at time step 1 is
not smaller than at time step 0: the source calculator has no time-step input,
so both are the same value. -/
theorem C4_counterexample :
    ¬ (concentration_for_time_step get_dummy_weather 1000 500 10 1 0 <
        concentration_for_time_step get_dummy_weather 1000 500 10 0 0) :=
  lt_irrefl _

/-- C4 amended: for a fixed weather state, emission rate, distance and stack
height, the concentration at any altitude is invariant in the time step — the
calculator applies no time-decay factor at all. -/
theorem C4_amended_time_invariance (w : WeatherCondition) (e d s : ℚ)
    (t u z : ℕ) :
    concentration_for_time_step w e d s t z =
      concentration_for_time_step w e d s u z := rfl

/-- C7: for every valid input (positive wind speed, nonnegative emission rate,
positive distance), every concentration value in the resulting field is
nonnegative and bounded above by the finite centerline coefficient
emission_rate / (2 pi wind_speed sigma_y sigma_z) — in particular never
negative and never infinite. -/
theorem C7_nonneg_concentrations (w : WeatherCondition) (e d s : ℚ)
    (hws : 0 < w.wind_speed) (he : 0 ≤ e) (hd : 0 < d) :
    FieldAll
      (fun c => 0 ≤ c ∧
        c ≤ (e : ℝ) / (2 * Real.pi * (w.wind_speed : ℝ) * sigma_yz w d * sigma_yz w d))
      (calculate_dispersion w e d s) := by
  unfold calculate_dispersion
  simp only [heights, List.map, FieldAll]
  refine ⟨?_, ?_, ?_, ?_, ?_, trivial⟩ <;>
    exact ⟨plume_concentration_nonneg w e d s _ hws he hd,
      plume_concentration_le w e d s _ hws he hd⟩

/-- C7 witness: the field for (dummy weather, emission rate 1000, distance
500, stack height 10) consists of values between 0 and the centerline
coefficient. -/
theorem C7_nonneg_concentrations_witness :
    FieldAll
      (fun c => 0 ≤ c ∧
        c ≤ ((1000 : ℚ) : ℝ) /
          (2 * Real.pi * (get_dummy_weather.wind_speed : ℝ) *
            sigma_yz get_dummy_weather 500 * sigma_yz get_dummy_weather 500))
      (calculate_dispersion get_dummy_weather 1000 500 10) :=
  C7_nonneg_concentrations get_dummy_weather 1000 500 10
    (by norm_num [get_dummy_weather]) (by norm_num) (by norm_num)

/-- C5 counterexample: with the invalid emission rate -1 (dummy weather,
distance 100, stack height 10) the calculator does not stop with a validation
error: it returns a full five-entry concentration field whose ground-level
value is strictly negative, i.e. the plume arithmetic was evaluated. -/
theorem C5_counterexample :
    (calculate_dispersion get_dummy_weather (-1) 100 10).length = 5 ∧
    concAt (calculate_dispersion get_dummy_weather (-1) 100 10) 0 < 0 := by
  constructor
  · rfl
  · show plume_concentration get_dummy_weather (-1) 100 10 0 < 0
    exact plume_concentration_neg get_dummy_weather (-1) 100 10 0
      (by norm_num [get_dummy_weather]) (by norm_num) (by norm_num)

/-- C5 amended: the calculator performs no input validation: for any negative
emission rate (with positive wind speed and distance) it proceeds into the
plume arithmetic and returns the full five-altitude field, every value of
which is strictly negative, instead of signalling a validation error. -/
theorem C5_amended_no_validation (w : WeatherCondition) (e d s : ℚ)
    (hws : 0 < w.wind_speed) (he : e < 0) (hd : 0 < d) :
    (calculate_dispersion w e d s).map Prod.fst =
      ["0m", "50m", "100m", "200m", "500m"] ∧
    FieldAll (fun c => c < 0) (calculate_dispersion w e d s) := by
  refine ⟨rfl, ?_⟩
  unfold calculate_dispersion
  simp only [heights, List.map, FieldAll]
  refine ⟨?_, ?_, ?_, ?_, ?_, trivial⟩ <;>
    exact plume_concentration_neg w e d s _ hws he hd

/-- C5 witness for the amended statement, at (dummy weather, emission rate -1,
distance 100, stack height 10). -/
theorem C5_amended_no_validation_witness :
    (calculate_dispersion get_dummy_weather (-1) 100 10).map Prod.fst =
      ["0m", "50m", "100m", "200m", "500m"] ∧
    FieldAll (fun c => c < 0) (calculate_dispersion get_dummy_weather (-1) 100 10) :=
  C5_amended_no_validation get_dummy_weather (-1) 100 10
    (by norm_num [get_dummy_weather]) (by norm_num) (by norm_num)

/-- The spread parameter of the dummy weather at distance 1 evaluates to the
class-C coefficient 0.209, since 1 raised to any power is 1. -/
lemma sigma_yz_dummy_one : sigma_yz get_dummy_weather 1 = (0.209 : ℝ) := by
  unfold sigma_yz
  rw [dummy_stability_class]
  simp only [stability_classes, String.reduceEq, reduceIte]
  push_cast
  rw [Real.one_rpow]
  norm_num

/-- C1 counterexample: at the concrete query (dummy weather, emission rate
1000, distance 1, stack height 10, altitude 0, time step 0) the value the
calculator stores under the 0m key differs from the concentration formula the
claim prescribes (wind_effect factor, centerline fixed at 50 m, time-decay
factor): the code value uses the centerline stack_height = 10, so it is
strictly larger. -/
theorem C1_counterexample :
    concAt (calculate_dispersion get_dummy_weather 1000 1 10) 0 ≠
      specC1_concentration get_dummy_weather 1000 1 0 0 := by
  have hL : concAt (calculate_dispersion get_dummy_weather 1000 1 10) 0 =
      (1000 : ℝ) / (2 * Real.pi * 5 * 0.209 * 0.209) *
        Real.exp (-0.5 * 100 / 0.209 ^ 2) := by
    show plume_concentration get_dummy_weather 1000 1 10 0 = _
    unfold plume_concentration
    rw [sigma_yz_dummy_one]
    norm_num [get_dummy_weather]
  have hR : specC1_concentration get_dummy_weather 1000 1 0 0 =
      (1000 : ℝ) / (2 * Real.pi * 5 * 0.209 * 0.209) *
        Real.exp (-0.5 * 2500 / 0.209 ^ 2) := by
    unfold specC1_concentration
    rw [dummy_stability_class]
    simp only [stability_classes, String.reduceEq, reduceIte]
    norm_num [get_dummy_weather, Real.one_rpow, Real.exp_zero]
  rw [hL, hR]
  have hK : (0 : ℝ) < (1000 : ℝ) / (2 * Real.pi * 5 * 0.209 * 0.209) := by
    have := Real.pi_pos
    positivity
  have hlt : Real.exp (-0.5 * 2500 / 0.209 ^ 2) <
      Real.exp (-0.5 * 100 / 0.209 ^ 2) := by
    apply Real.exp_lt_exp.mpr
    norm_num
  exact (ne_of_lt (mul_lt_mul_of_pos_left hlt hK)).symm

/-- C1 amended: at each altitude z of the fixed set, the calculator stores
concentration(z) = emission_rate / (2 pi wind_speed sigma_y sigma_z)
* exp(-0.5 (z - stack_height)^2 / sigma_z^2), with
sigma_y = sigma_z = a * distance^b for the coefficients (a, b) of the resolved
stability class: the spread carries no wind_effect factor, the plume
centerline is the stack_height argument (default 10), and no time-decay
factor is applied. -/
theorem C1_amended_plume_formula (w : WeatherCondition) (e d s : ℚ) (z : ℕ)
    (hz : z ∈ heights) :
    concAt (calculate_dispersion w e d s) z =
      (e : ℝ) / (2 * Real.pi * (w.wind_speed : ℝ) * sigma_yz w d * sigma_yz w d) *
        Real.exp (-0.5 * ((z : ℝ) - (s : ℝ)) ^ 2 / sigma_yz w d ^ 2) := by
  fin_cases hz <;> rfl

/-- C1 witness for the amended statement, at altitude 50 of the query (dummy
weather, emission rate 1000, distance 500, stack height 10). -/
theorem C1_amended_plume_formula_witness :
    (50 : ℕ) ∈ heights ∧
    concAt (calculate_dispersion get_dummy_weather 1000 500 10) 50 =
      ((1000 : ℚ) : ℝ) /
          (2 * Real.pi * (get_dummy_weather.wind_speed : ℝ) *
            sigma_yz get_dummy_weather 500 * sigma_yz get_dummy_weather 500) *
        Real.exp (-0.5 * (((50 : ℕ) : ℝ) - ((10 : ℚ) : ℝ)) ^ 2 /
          sigma_yz get_dummy_weather 500 ^ 2) :=
  ⟨by decide, C1_amended_plume_formula get_dummy_weather 1000 500 10 50 (by decide)⟩

/-- C3 counterexample: for the dummy weather state (wind_speed 5.0) the
resolved stability class is not D — wind_speed 5.0 fails the strict test
against 5 and lands in class C. -/
theorem C3_counterexample : determine_stability_class get_dummy_weather ≠ "D" := by
  rw [dummy_stability_class]
  decide

/-- C3 amended: for the concrete query (dummy weather, emission rate 1000,
distance 500, stack height 10) the resolved stability class is C with
coefficients a = 0.209 and b = 0.897, sigma_y = sigma_z = 0.209 * 500^0.897,
and the concentration is strictly maximal at altitude 0 (closest to the 10 m
stack height), strictly decreasing through altitudes 50, 100, 200, 500. -/
theorem C3_amended_concrete_scenario :
    determine_stability_class get_dummy_weather = "C" ∧
    stability_classes "C" = (0.209, 0.897) ∧
    sigma_yz get_dummy_weather 500 = (0.209 : ℝ) * (500 : ℝ) ^ ((0.897 : ℚ) : ℝ) ∧
    concAt (calculate_dispersion get_dummy_weather 1000 500 10) 50 <
      concAt (calculate_dispersion get_dummy_weather 1000 500 10) 0 ∧
    concAt (calculate_dispersion get_dummy_weather 1000 500 10) 100 <
      concAt (calculate_dispersion get_dummy_weather 1000 500 10) 50 ∧
    concAt (calculate_dispersion get_dummy_weather 1000 500 10) 200 <
      concAt (calculate_dispersion get_dummy_weather 1000 500 10) 100 ∧
    concAt (calculate_dispersion get_dummy_weather 1000 500 10) 500 <
      concAt (calculate_dispersion get_dummy_weather 1000 500 10) 200 := by
  refine ⟨dummy_stability_class, by simp [stability_classes], ?_, ?_, ?_, ?_, ?_⟩
  · unfold sigma_yz
    rw [dummy_stability_class]
    simp only [stability_classes, String.reduceEq, reduceIte]
    push_cast
    norm_num
  · show plume_concentration get_dummy_weather 1000 500 10 50 <
      plume_concentration get_dummy_weather 1000 500 10 0
    exact plume_concentration_lt get_dummy_weather 1000 500 10 0 50
      (by norm_num [get_dummy_weather]) (by norm_num) (by norm_num) (by norm_num)
  · show plume_concentration get_dummy_weather 1000 500 10 100 <
      plume_concentration get_dummy_weather 1000 500 10 50
    exact plume_concentration_lt get_dummy_weather 1000 500 10 50 100
      (by norm_num [get_dummy_weather]) (by norm_num) (by norm_num) (by norm_num)
  · show plume_concentration get_dummy_weather 1000 500 10 200 <
      plume_concentration get_dummy_weather 1000 500 10 100
    exact plume_concentration_lt get_dummy_weather 1000 500 10 100 200
      (by norm_num [get_dummy_weather]) (by norm_num) (by norm_num) (by norm_num)
  · show plume_concentration get_dummy_weather 1000 500 10 500 <
      plume_concentration get_dummy_weather 1000 500 10 200
    exact plume_concentration_lt get_dummy_weather 1000 500 10 200 500
      (by norm_num [get_dummy_weather]) (by norm_num) (by norm_num) (by norm_num)

/-- C2 evaluation at the failing input: the series built for the single
pollutant mapping co2 with rate 100 (weather fetch failed, dummy fallback) has
exactly one pollutant entry whose second level holds the five distance keys
100m to 5000m — not 24 Hour labels — and in total 1 x 5 x 5 = 25 leaf values,
not 600; no key at the second level starts with Hour. -/
theorem C2_series_shape_eval :
    ((analyze_launch_conditions none [("co2", 100)]).2).map Prod.fst = ["co2"] ∧
    (((analyze_launch_conditions none [("co2", 100)]).2).map fun p =>
      p.2.map Prod.fst) = [["100m", "500m", "1000m", "2000m", "5000m"]] ∧
    (((analyze_launch_conditions none [("co2", 100)]).2).map fun p =>
      (p.2.map fun q => q.2.length).sum) = [25] ∧
    (((analyze_launch_conditions none [("co2", 100)]).2).map fun p =>
      (p.2.map Prod.fst).contains "Hour 0") = [false] :=
  ⟨rfl, rfl, rfl, rfl⟩
